import Mathlib

/-!
Shallow embedding of `main.py`, the single orchestration script of the
repository. The script parses two numeric command-line flags, clamps them,
creates a shared directory, builds a fixed Containernet topology, starts two
Docker containers with a bind-mounted shared directory, runs fixed shell
commands in them, blocks on a prompt, then stops and removes everything.

Python floats are embedded as rationals: the only operations the script
performs on them are `max` against the literals `0.000001` and `0`, and both
literals and all comparisons are exact, so the rational embedding is
order-faithful. Machine formatting of the delay string is abstracted by
`toString`.
-/

namespace ProjectCCN

/-- Embedding of `bandwidth = max(args.link_bw, 0.000001)` (main.py line 26). -/
def clampBandwidth (linkBw : ℚ) : ℚ := max linkBw 0.000001

/-- Embedding of `delay = max(args.link_delay, 0)` (main.py line 27). -/
def clampDelay (linkDelay : ℚ) : ℚ := max linkDelay 0

/-- The two float-typed values produced by `argparse` (main.py lines 16-23). -/
structure Args where
  linkBw : ℚ
  linkDelay : ℚ
  deriving DecidableEq, Repr

/-- Embedding of argument parsing: each flag is optional (`nargs='?'`) with
default `10`; an omitted flag yields its default (main.py lines 17, 20). -/
def parseArgs (cli : Option ℚ × Option ℚ) : Args :=
  ⟨cli.1.getD 10, cli.2.getD 10⟩

/-- Embedding of the delay argument `f'{delay}ms'` of `net.addLink`
(main.py line 59); numeral formatting is abstracted by `toString`. -/
def renderDelay (delay : ℚ) : String := toString delay ++ "ms"

/-- One Docker host as added by `net.addDockerHost` (main.py lines 47-52). -/
structure DockerHost where
  name : String
  dimage : String
  ip : String
  hostname : String
  deriving DecidableEq, Repr

/-- One link as added by `net.addLink`: endpoints plus the optional
bandwidth/delay keyword arguments (main.py lines 58-60). -/
structure Link where
  ep1 : String
  ep2 : String
  bw : Option ℚ
  delay : Option String
  deriving DecidableEq, Repr

/-- The topology state accumulated by the `net.add*` calls. -/
structure Net where
  controllers : List String
  hosts : List DockerHost
  switches : List String
  links : List Link
  deriving DecidableEq, Repr

def emptyNet : Net := ⟨[], [], [], []⟩

def addController (n : Net) (name : String) : Net :=
  { n with controllers := n.controllers ++ [name] }

def addDockerHost (n : Net) (name dimage ip hostname : String) : Net :=
  { n with hosts := n.hosts ++ [⟨name, dimage, ip, hostname⟩] }

def addSwitch (n : Net) (name : String) : Net :=
  { n with switches := n.switches ++ [name] }

def addLink (n : Net) (a b : String) (bw : Option ℚ) (delay : Option String) : Net :=
  { n with links := n.links ++ [⟨a, b, bw, delay⟩] }

/-- Embedding of the topology-construction calls of `main` in source order
(main.py lines 42-60), applied to the already-clamped bandwidth and delay. -/
def buildTopology (bandwidth delay : ℚ) : Net :=
  let n := emptyNet
  let n := addController n "c0"
  let n := addDockerHost n "server" "video_streaming_server" "10.0.0.1" "server"
  let n := addDockerHost n "client" "video_streaming_client" "10.0.0.2" "client"
  let n := addSwitch n "s1"
  let n := addSwitch n "s2"
  let n := addLink n "s1" "server" none none
  let n := addLink n "s1" "s2" (some bandwidth) (some (renderDelay delay))
  let n := addLink n "s2" "client" none none
  n

/-- Exception classes distinguished by the script's handlers:
`subprocess.CalledProcessError` (caught at the `subprocess.run` sites), any
other subclass of `Exception` (caught at the `mgr.addContainer` /
`mgr.removeContainer` sites and by the top-level handler), and
`KeyboardInterrupt`, which subclasses `BaseException` but not `Exception`. -/
inductive ExcClass
  | calledProcessError
  | otherException
  | keyboardInterrupt
  deriving DecidableEq, Repr

/-- Whether the class is a subclass of Python's `Exception`. -/
def isException : ExcClass → Bool
  | .keyboardInterrupt => false
  | _ => true

/-- The local handler attached to a statement of `main`: none, a broad
`except Exception`, or an `except subprocess.CalledProcessError`. -/
inductive Handler
  | noHandler
  | catchException
  | catchCalledProcessError
  deriving DecidableEq, Repr

/-- Which raised classes a handler catches. -/
def handles : Handler → ExcClass → Bool
  | .noHandler, _ => false
  | .catchException, e => isException e
  | .catchCalledProcessError, .calledProcessError => true
  | .catchCalledProcessError, _ => false

/-- The statements of `main` that call into the outside world, one
constructor per call site, named after the source line it embeds. -/
inductive Step
  | makedirsShared
  | setLogLevelInfo
  | instantiateNet
  | instantiateMgr
  | addControllerC0
  | addHostServer
  | addHostClient
  | addSwitchS1
  | addSwitchS2
  | linkS1Server
  | linkS1S2
  | linkS2Client
  | netStart
  | addContainerServer
  | addContainerClient
  | dockerStartServer
  | dockerStartClient
  | execStreamVideo
  | execGetVideoStream
  | promptEnter
  | pkillStreamVideo
  | pkillGetVideoStream
  | removeContainerServer
  | removeContainerClient
  | netStop
  | mgrStop
  deriving DecidableEq, Repr

/-- The local handler of each statement, read off the source: the two
`mgr.addContainer` calls (lines 69-91) and the two `mgr.removeContainer`
calls (lines 140-150) sit in `try ... except Exception`; the six
`subprocess.run` calls (lines 95-136) sit in
`try ... except subprocess.CalledProcessError`; every other statement of
`main` (lines 32-66, 122, 152-153) has no local handler. -/
def handlerOf : Step → Handler
  | .addContainerServer => .catchException
  | .addContainerClient => .catchException
  | .removeContainerServer => .catchException
  | .removeContainerClient => .catchException
  | .dockerStartServer => .catchCalledProcessError
  | .dockerStartClient => .catchCalledProcessError
  | .execStreamVideo => .catchCalledProcessError
  | .execGetVideoStream => .catchCalledProcessError
  | .pkillStreamVideo => .catchCalledProcessError
  | .pkillGetVideoStream => .catchCalledProcessError
  | _ => .noHandler

/-- Whether a statement has any local try/except around it. -/
def hasLocalHandler (s : Step) : Bool :=
  match handlerOf s with
  | .noHandler => false
  | _ => true

/-- The statements of `main` in source order (main.py lines 32-153). -/
def mainSteps : List Step :=
  [.makedirsShared, .setLogLevelInfo, .instantiateNet, .instantiateMgr,
   .addControllerC0, .addHostServer, .addHostClient, .addSwitchS1,
   .addSwitchS2, .linkS1Server, .linkS1S2, .linkS2Client, .netStart,
   .addContainerServer, .addContainerClient, .dockerStartServer,
   .dockerStartClient, .execStreamVideo, .execGetVideoStream, .promptEnter,
   .pkillStreamVideo, .pkillGetVideoStream, .removeContainerServer,
   .removeContainerClient, .netStop, .mgrStop]

/-- The outcome the environment assigns to one executed statement:
it returns normally or raises an exception of some class. -/
inductive StepResult
  | ok
  | raise (e : ExcClass)
  deriving DecidableEq, Repr

/-- How a run of `main` ends: the last statement was executed, or an
exception escaped every local handler. -/
inductive RunResult
  | completed
  | uncaught (e : ExcClass)
  deriving DecidableEq, Repr

/-- Executes the statements in order under an environment choosing each
statement's outcome. A raise caught by the statement's local handler is
logged and execution continues with the next statement (the `except`
bodies only call `info`); a raise no local handler catches stops the run.
Returns the trace of statements that were executed and the run result. -/
def runSteps (env : Step → StepResult) : List Step → List Step × RunResult
  | [] => ([], .completed)
  | s :: rest =>
    match env s with
    | .ok =>
      let r := runSteps env rest
      (s :: r.1, r.2)
    | .raise e =>
      if handles (handlerOf s) e then
        let r := runSteps env rest
        (s :: r.1, r.2)
      else
        ([s], .uncaught e)

/-- One run of the body of `main` (after argument parsing and clamping). -/
def runMain (env : Step → StepResult) : List Step × RunResult :=
  runSteps env mainSteps

/-- How the process ends: a `sys.exit`-style numeric code, or termination
by an exception that no handler in the program caught. -/
inductive ExitStatus
  | code (n : Nat)
  | killedUncaught (e : ExcClass)
  deriving DecidableEq, Repr

/-- Observable outcome of the whole process: how it exited and whether the
top-level `print(f"Error: {e}")` ran. -/
structure ProcessOutcome where
  exitedVia : ExitStatus
  printedErrorMsg : Bool
  deriving DecidableEq, Repr

/-- Embedding of the `__main__` guard (main.py lines 156-161): a completed
`main` falls off the end of the script (implicit exit code 0); an escaping
exception of class `Exception` is caught, printed, and turned into
`sys.exit(1)`; an escaping non-`Exception` raise matches no handler and
kills the process without printing the error message. -/
def topLevel : RunResult → ProcessOutcome
  | .completed => ⟨.code 0, false⟩
  | .uncaught e =>
    if isException e then ⟨.code 1, true⟩
    else ⟨.killedUncaught e, false⟩

/-- The process outcome of one run of the script under an environment. -/
def mainOutcome (env : Step → StepResult) : ProcessOutcome :=
  topLevel (runMain env).2

/-- Whether a statement's raise (if any) is caught by its own handler. -/
def stepHandled (env : Step → StepResult) (s : Step) : Bool :=
  match env s with
  | .ok => true
  | .raise e => handles (handlerOf s) e

/-- Embedding of `os.path.join(script_dir, 'shared')` (main.py line 31):
the shared directory lives beside the script. -/
def sharedDirPath (scriptDir : String) : String := scriptDir ++ "/shared"

/-- Embedding of `os.makedirs(path, exist_ok=existOk)` (main.py line 32)
over a set of existing directories: creating an existing directory raises
`FileExistsError` unless `exist_ok` is set, in which case the filesystem is
returned unchanged; a missing directory is created. -/
def makedirs (fs : List String) (path : String) (existOk : Bool) :
    Except String (List String) :=
  if path ∈ fs then
    if existOk then .ok fs else .error "FileExistsError"
  else .ok (path :: fs)

/-- One bind mount of the `volumes` entry in `docker_args`. -/
structure VolumeMount where
  hostDir : String
  bind : String
  mode : String
  deriving DecidableEq, Repr

/-- The arguments of one `mgr.addContainer` call. -/
structure ContainerSpec where
  name : String
  host : String
  dimage : String
  cmd : String
  volume : VolumeMount
  deriving DecidableEq, Repr

/-- Embedding of the `mgr.addContainer('streaming_server', ...)` call
(main.py lines 70-76). -/
def streamingServerSpec (sharedDir : String) : ContainerSpec :=
  ⟨"streaming_server", "server", "video_streaming_server", "",
   ⟨sharedDir, "/home/shared/", "rw"⟩⟩

/-- Embedding of the `mgr.addContainer('streaming_client', ...)` call
(main.py lines 82-88). -/
def streamingClientSpec (sharedDir : String) : ContainerSpec :=
  ⟨"streaming_client", "client", "video_streaming_client", "",
   ⟨sharedDir, "/home/shared/", "rw"⟩⟩

/-- Environment in which every external call succeeds. -/
def envAllOk : Step → StepResult := fun _ => .ok

/-- Environment in which `net.start()` (main.py line 64) raises an
`Exception`-class error and every other call succeeds. -/
def envNetStartRaises : Step → StepResult :=
  fun s => if s = Step.netStart then .raise .otherException else .ok

/-- Environment in which the blocking `input(...)` prompt (main.py line
122) is interrupted by `KeyboardInterrupt` and every other call succeeds. -/
def envInterruptAtPrompt : Step → StepResult :=
  fun s => if s = Step.promptEnter then .raise .keyboardInterrupt else .ok

/-- Environment in which the first `subprocess.run('docker start ...')`
(main.py line 96) raises an `Exception`-class error that is not a
`CalledProcessError`, and every other call succeeds. -/
def envDockerStartRaisesOther : Step → StepResult :=
  fun s => if s = Step.dockerStartServer then .raise .otherException else .ok

/-- Environment in which the first `mgr.addContainer` call (main.py lines
70-76) raises an `Exception`-class error and every other call succeeds. -/
def envAddContainerRaises : Step → StepResult :=
  fun s => if s = Step.addContainerServer then .raise .otherException else .ok

/-- Membership of the stop/teardown phase (main.py lines 126-153). -/
def stopPhaseStep : Step → Bool
  | .pkillStreamVideo => true
  | .pkillGetVideoStream => true
  | .removeContainerServer => true
  | .removeContainerClient => true
  | .netStop => true
  | .mgrStop => true
  | _ => false

/-- Holds of a statement list when, from the first stop-phase statement on,
every statement is a stop-phase statement: no start/exec action occurs
after the stop phase begins. -/
def phaseOrdered : List Step → Bool
  | [] => true
  | s :: rest =>
    if stopPhaseStep s then rest.all stopPhaseStep
    else phaseOrdered rest

/-- Holds of a statement list when no stop-phase statement occurs strictly
before the prompt statement. -/
def noStopBeforePrompt : List Step → Bool
  | [] => true
  | s :: rest =>
    if s = Step.promptEnter then true
    else !stopPhaseStep s && noStopBeforePrompt rest

lemma runSteps_trace_take (env : Step → StepResult) :
    ∀ l : List Step, ∃ n, (runSteps env l).1 = l.take n := by
  intro l
  induction l with
  | nil => exact ⟨0, rfl⟩
  | cons s rest ih =>
    obtain ⟨n, hn⟩ := ih
    cases h : env s with
    | ok =>
      exact ⟨n + 1, by simp [runSteps, h, hn]⟩
    | raise e =>
      cases hh : handles (handlerOf s) e with
      | true => exact ⟨n + 1, by simp [runSteps, h, hh, hn]⟩
      | false => exact ⟨1, by simp [runSteps, h, hh]⟩

lemma runSteps_completed_trace (env : Step → StepResult) :
    ∀ l : List Step, (runSteps env l).2 = .completed →
      (runSteps env l).1 = l := by
  intro l
  induction l with
  | nil => intro _; rfl
  | cons s rest ih =>
    intro hc
    cases h : env s with
    | ok =>
      simp only [runSteps, h] at hc ⊢
      simp [ih hc]
    | raise e =>
      cases hh : handles (handlerOf s) e with
      | true =>
        simp only [runSteps, h, hh, if_true] at hc ⊢
        simp [ih hc]
      | false =>
        simp [runSteps, h, hh] at hc

lemma runSteps_allHandled (env : Step → StepResult) :
    ∀ l : List Step, (∀ s ∈ l, stepHandled env s = true) →
      runSteps env l = (l, .completed) := by
  intro l
  induction l with
  | nil => intro _; rfl
  | cons s rest ih =>
    intro hall
    have hs := hall s (List.mem_cons_self s rest)
    have hrest : ∀ t ∈ rest, stepHandled env t = true :=
      fun t ht => hall t (List.mem_cons_of_mem s ht)
    cases h : env s with
    | ok => simp [runSteps, h, ih hrest]
    | raise e =>
      have : handles (handlerOf s) e = true := by
        simpa [stepHandled, h] using hs
      simp [runSteps, h, this, ih hrest]

lemma all_take {p : Step → Bool} (l : List Step) (n : Nat)
    (h : l.all p = true) : (l.take n).all p = true := by
  rw [List.all_eq_true] at h ⊢
  exact fun x hx => h x (List.take_subset n l hx)

lemma phaseOrdered_take :
    ∀ (l : List Step) (n : Nat), phaseOrdered l = true →
      phaseOrdered (l.take n) = true := by
  intro l
  induction l with
  | nil => intro n _; simp [phaseOrdered]
  | cons s rest ih =>
    intro n h
    cases n with
    | zero => simp [phaseOrdered]
    | succ m =>
      rw [List.take_succ_cons]
      cases hs : stopPhaseStep s with
      | false =>
        simp only [phaseOrdered, hs, if_false] at h ⊢
        exact ih m h
      | true =>
        simp only [phaseOrdered, hs, if_true] at h ⊢
        exact all_take rest m h

lemma noStopBeforePrompt_take :
    ∀ (l : List Step) (n : Nat), noStopBeforePrompt l = true →
      noStopBeforePrompt (l.take n) = true := by
  intro l
  induction l with
  | nil => intro n _; simp [noStopBeforePrompt]
  | cons s rest ih =>
    intro n h
    cases n with
    | zero => simp [noStopBeforePrompt]
    | succ m =>
      rw [List.take_succ_cons]
      by_cases hs : s = Step.promptEnter
      · simp [noStopBeforePrompt, hs]
      · simp only [noStopBeforePrompt, hs, if_false,
          Bool.and_eq_true] at h ⊢
        exact ⟨h.1, ih m h.2⟩

/-- C1: for every command-line input pair, a `--link-bw` value ≤ 0 is
clamped to the strictly positive floor 0.000001 and a `--link-delay` value
≤ 0 is clamped to a non-negative value; after clamping the bandwidth is
always strictly positive and the delay always non-negative. -/
theorem clamping_bounds_c1 (linkBw linkDelay : ℚ) :
    (linkBw ≤ 0 → clampBandwidth linkBw = 0.000001) ∧
    (linkDelay ≤ 0 → 0 ≤ clampDelay linkDelay) ∧
    0 < clampBandwidth linkBw ∧ 0 ≤ clampDelay linkDelay := by
  refine ⟨?_, ?_, ?_, ?_⟩
  · intro h
    have hle : linkBw ≤ (0.000001 : ℚ) := le_trans h (by norm_num)
    simpa [clampBandwidth] using max_eq_right hle
  · intro _
    exact le_max_right _ _
  · exact lt_max_iff.mpr (Or.inr (by norm_num))
  · exact le_max_right _ _

/-- Witness for C1 at the concrete inputs −5 and −3. -/
theorem clamping_bounds_c1_witness :
    clampBandwidth (-5) = 0.000001 ∧ 0 ≤ clampDelay (-3) ∧
    0 < clampBandwidth (-5) ∧ 0 ≤ clampDelay (-3) := by
  obtain ⟨h1, h2, h3, h4⟩ := clamping_bounds_c1 (-5) (-3)
  exact ⟨h1 (by norm_num), h2 (by norm_num), h3, h4⟩

/-- C7: an omitted `--link-bw` flag defaults to 10 and an omitted
`--link-delay` flag defaults to 10 (both float-typed values, embedded as
rationals), and both defaults pass through the clamping unchanged. -/
theorem defaults_c7 :
    parseArgs (none, none) = ⟨10, 10⟩ ∧
    clampBandwidth (parseArgs (none, none)).linkBw = 10 ∧
    clampDelay (parseArgs (none, none)).linkDelay = 10 := by
  refine ⟨rfl, ?_, ?_⟩
  · show clampBandwidth 10 = 10
    simp only [clampBandwidth]
    exact max_eq_left (by norm_num)
  · show clampDelay 10 = 10
    simp only [clampDelay]
    exact max_eq_left (by norm_num)

/-- C9: the clamping is the identity on in-range inputs (`--link-bw` ≥
0.000001, `--link-delay` ≥ 0) and is idempotent on all inputs. -/
theorem clamp_identity_c9 (linkBw linkDelay : ℚ) :
    (0.000001 ≤ linkBw → clampBandwidth linkBw = linkBw) ∧
    (0 ≤ linkDelay → clampDelay linkDelay = linkDelay) ∧
    clampBandwidth (clampBandwidth linkBw) = clampBandwidth linkBw ∧
    clampDelay (clampDelay linkDelay) = clampDelay linkDelay := by
  refine ⟨?_, ?_, ?_, ?_⟩
  · intro h
    simpa [clampBandwidth] using max_eq_left h
  · intro h
    simpa [clampDelay] using max_eq_left h
  · simp only [clampBandwidth]
    rw [max_assoc, max_self]
  · simp only [clampDelay]
    rw [max_assoc, max_self]

/-- Witness for C9 at the concrete inputs 3 and 0. -/
theorem clamp_identity_c9_witness :
    clampBandwidth 3 = 3 ∧ clampDelay 0 = 0 ∧
    clampBandwidth (clampBandwidth 3) = clampBandwidth 3 ∧
    clampDelay (clampDelay 0) = clampDelay 0 := by
  obtain ⟨h1, h2, h3, h4⟩ := clamp_identity_c9 3 0
  exact ⟨h1 (by norm_num), h2 le_rfl, h3, h4⟩

/-- C8: for any clamped inputs, the constructed topology has exactly the
hosts server (image video_streaming_server, IP 10.0.0.1) and client (image
video_streaming_client, IP 10.0.0.2), switches s1 and s2, controller c0,
and three links, of which only the s1–s2 link carries the bandwidth and
the delay rendered as a millisecond string. -/
theorem topology_c8 (linkBw linkDelay : ℚ) :
    (buildTopology (clampBandwidth linkBw) (clampDelay linkDelay)).controllers
      = ["c0"] ∧
    (buildTopology (clampBandwidth linkBw) (clampDelay linkDelay)).hosts =
      [⟨"server", "video_streaming_server", "10.0.0.1", "server"⟩,
       ⟨"client", "video_streaming_client", "10.0.0.2", "client"⟩] ∧
    (buildTopology (clampBandwidth linkBw) (clampDelay linkDelay)).switches
      = ["s1", "s2"] ∧
    (buildTopology (clampBandwidth linkBw) (clampDelay linkDelay)).links =
      [⟨"s1", "server", none, none⟩,
       ⟨"s1", "s2", some (clampBandwidth linkBw),
        some (renderDelay (clampDelay linkDelay))⟩,
       ⟨"s2", "client", none, none⟩] ∧
    (((buildTopology (clampBandwidth linkBw) (clampDelay linkDelay)).links.filter
        (fun l => l.bw.isSome || l.delay.isSome)).map
      (fun l => (l.ep1, l.ep2))) = [("s1", "s2")] :=
  ⟨rfl, rfl, rfl, rfl, rfl⟩

/-- C2 counterexample: `net.start()` (main.py line 64) is an external-call
step with no local try/except; when it raises, the exception escapes and
none of the later steps execute, so not every external-call step is
wrapped and a step's failure can abort the sequence. -/
theorem unwrapped_step_aborts_c2_cex :
    handlerOf Step.netStart = Handler.noHandler ∧
    (runMain envNetStartRaises).2 =
      RunResult.uncaught ExcClass.otherException ∧
    Step.addContainerServer ∉ (runMain envNetStartRaises).1 := by
  decide

/-- C2 amended: exactly the ten container-lifecycle steps (the two
`mgr.addContainer` and two `mgr.removeContainer` calls, catching
`Exception`, and the six `subprocess.run` calls, catching
`CalledProcessError`) are wrapped in their own independent try/except
that logs and continues; the remaining steps have no local handler, and
whenever every raised exception is caught by its step's local handler the
run executes every step in order and completes. -/
theorem local_handlers_c2_amended :
    mainSteps.filter hasLocalHandler =
      [Step.addContainerServer, Step.addContainerClient,
       Step.dockerStartServer, Step.dockerStartClient,
       Step.execStreamVideo, Step.execGetVideoStream,
       Step.pkillStreamVideo, Step.pkillGetVideoStream,
       Step.removeContainerServer, Step.removeContainerClient] ∧
    handlerOf Step.addContainerServer = Handler.catchException ∧
    handlerOf Step.removeContainerServer = Handler.catchException ∧
    handlerOf Step.dockerStartServer = Handler.catchCalledProcessError ∧
    (∀ env : Step → StepResult,
      (∀ s ∈ mainSteps, stepHandled env s = true) →
        runMain env = (mainSteps, RunResult.completed)) := by
  refine ⟨by decide, rfl, rfl, rfl, ?_⟩
  intro env h
  exact runSteps_allHandled env mainSteps h

/-- Witness for the amended C2: a locally caught `mgr.addContainer`
failure does not abort the run, and the all-success run completes. -/
theorem local_handlers_c2_witness :
    runMain envAddContainerRaises = (mainSteps, RunResult.completed) ∧
    runMain envAllOk = (mainSteps, RunResult.completed) :=
  ⟨local_handlers_c2_amended.2.2.2.2 envAddContainerRaises (by decide),
   local_handlers_c2_amended.2.2.2.2 envAllOk (by decide)⟩

/-- C3 counterexample: a `KeyboardInterrupt` at the blocking prompt is an
exception no local handler catches, yet the process outcome is not exit
code 1 (the top-level handler catches only `Exception`). -/
theorem interrupt_exit_c3_cex :
    (runMain envInterruptAtPrompt).2 =
      RunResult.uncaught ExcClass.keyboardInterrupt ∧
    handles (handlerOf Step.promptEnter) ExcClass.keyboardInterrupt
      = false ∧
    (mainOutcome envInterruptAtPrompt).exitedVia ≠ ExitStatus.code 1 := by
  decide

/-- C3 amended: the exit code is 1 (with the error message printed)
whenever a step raises an `Exception`-class exception that is not caught
by that step's local handler, and the exit code is 0 on every completion
in which all raised exceptions were locally handled; a non-`Exception`
raise is outside this guarantee. -/
theorem exit_codes_c3_amended (env : Step → StepResult) (e : ExcClass) :
    ((runMain env).2 = RunResult.uncaught e → isException e = true →
      mainOutcome env = ⟨ExitStatus.code 1, true⟩) ∧
    ((runMain env).2 = RunResult.completed →
      mainOutcome env = ⟨ExitStatus.code 0, false⟩) := by
  constructor
  · intro h he
    simp [mainOutcome, h, topLevel, he]
  · intro h
    simp [mainOutcome, h, topLevel]

/-- Witness for the amended C3: a non-`CalledProcessError` exception at a
`subprocess.run` site escapes its local handler and yields exit code 1,
and the all-success run yields exit code 0. -/
theorem exit_codes_c3_witness :
    mainOutcome envDockerStartRaisesOther = ⟨ExitStatus.code 1, true⟩ ∧
    mainOutcome envAllOk = ⟨ExitStatus.code 0, false⟩ :=
  ⟨(exit_codes_c3_amended envDockerStartRaisesOther
      ExcClass.otherException).1 (by decide) (by decide),
   (exit_codes_c3_amended envAllOk ExcClass.otherException).2 (by decide)⟩

/-- C4: every run that completes the linear script executed every step,
so in particular the four cleanup steps, which are the last four in
source order (remove both containers, then stop the network and the
manager); and an abnormal termination before the cleanup section (here a
`KeyboardInterrupt` at the prompt) skips all four cleanup calls. -/
theorem cleanup_at_end_c4 :
    (∀ env : Step → StepResult, (runMain env).2 = RunResult.completed →
      (runMain env).1 = mainSteps) ∧
    mainSteps.drop 22 =
      [Step.removeContainerServer, Step.removeContainerClient,
       Step.netStop, Step.mgrStop] ∧
    ((runMain envInterruptAtPrompt).2 ≠ RunResult.completed ∧
     Step.removeContainerServer ∉ (runMain envInterruptAtPrompt).1 ∧
     Step.removeContainerClient ∉ (runMain envInterruptAtPrompt).1 ∧
     Step.netStop ∉ (runMain envInterruptAtPrompt).1 ∧
     Step.mgrStop ∉ (runMain envInterruptAtPrompt).1) := by
  refine ⟨?_, by decide, by decide⟩
  intro env h
  exact runSteps_completed_trace env mainSteps h

/-- Witness for C4: the all-success run completes and executed every
step, the cleanup steps included. -/
theorem cleanup_at_end_c4_witness :
    (runMain envAllOk).1 = mainSteps :=
  cleanup_at_end_c4.1 envAllOk (by decide)

/-- C5: the statements of `main` are pairwise distinct and in a fixed
linear order; every run executes a prefix of that order (so each phase
happens at most once, and exactly once on completion); in every run no
start/exec step is issued after the first stop-phase step, and no
stop-phase step is issued before the prompt returns. -/
theorem linear_phases_c5 :
    List.Nodup mainSteps ∧
    (∀ env : Step → StepResult, ∃ n, (runMain env).1 = mainSteps.take n) ∧
    (∀ env : Step → StepResult, (runMain env).2 = RunResult.completed →
      (runMain env).1 = mainSteps) ∧
    (∀ env : Step → StepResult, phaseOrdered (runMain env).1 = true) ∧
    (∀ env : Step → StepResult,
      noStopBeforePrompt (runMain env).1 = true) ∧
    phaseOrdered mainSteps = true ∧
    noStopBeforePrompt mainSteps = true := by
  refine ⟨by decide, ?_, ?_, ?_, ?_, by decide, by decide⟩
  · intro env
    exact runSteps_trace_take env mainSteps
  · intro env h
    exact runSteps_completed_trace env mainSteps h
  · intro env
    obtain ⟨n, hn⟩ := runSteps_trace_take env mainSteps
    show phaseOrdered (runSteps env mainSteps).1 = true
    rw [hn]
    exact phaseOrdered_take mainSteps n (by decide)
  · intro env
    obtain ⟨n, hn⟩ := runSteps_trace_take env mainSteps
    show noStopBeforePrompt (runSteps env mainSteps).1 = true
    rw [hn]
    exact noStopBeforePrompt_take mainSteps n (by decide)

/-- Witness for C5: the all-success run completes, executing the full
step list, which is phase-ordered. -/
theorem linear_phases_c5_witness :
    (runMain envAllOk).1 = mainSteps ∧
    phaseOrdered (runMain envAllOk).1 = true :=
  ⟨linear_phases_c5.2.2.1 envAllOk (by decide),
   linear_phases_c5.2.2.2.1 envAllOk⟩

/-- C6: the shared directory is created beside the script; with
`exist_ok=True` the creation never raises, and in particular leaves the
filesystem unchanged when the directory already exists; the same host
directory is bind-mounted read-write into both containers at the fixed
in-container path /home/shared/. -/
theorem shared_dir_c6 (fs : List String) (scriptDir : String) :
    (sharedDirPath scriptDir ∈ fs →
      makedirs fs (sharedDirPath scriptDir) true = Except.ok fs) ∧
    (∃ fs2, makedirs fs (sharedDirPath scriptDir) true = Except.ok fs2) ∧
    sharedDirPath scriptDir = scriptDir ++ "/shared" ∧
    (streamingServerSpec (sharedDirPath scriptDir)).volume =
      ⟨sharedDirPath scriptDir, "/home/shared/", "rw"⟩ ∧
    (streamingClientSpec (sharedDirPath scriptDir)).volume =
      ⟨sharedDirPath scriptDir, "/home/shared/", "rw"⟩ := by
  refine ⟨?_, ?_, rfl, rfl, rfl⟩
  · intro h
    simp [makedirs, h]
  · by_cases h : sharedDirPath scriptDir ∈ fs
    · exact ⟨fs, by simp [makedirs, h]⟩
    · exact ⟨sharedDirPath scriptDir :: fs, by simp [makedirs, h]⟩

/-- Witness for C6: creating the shared directory when it already exists
does not raise and leaves the filesystem unchanged. -/
theorem shared_dir_c6_witness :
    makedirs ["/app/shared"] (sharedDirPath "/app") true =
      Except.ok ["/app/shared"] :=
  (shared_dir_c6 ["/app/shared"] "/app").1 (by decide)

/-- C10: a `KeyboardInterrupt` at the blocking prompt is not an
`Exception`, bypasses the top-level handler entirely (no error message
printed, no exit-code-1 path), and none of the cleanup steps run. -/
theorem keyboard_interrupt_c10 :
    (runMain envInterruptAtPrompt).2 =
      RunResult.uncaught ExcClass.keyboardInterrupt ∧
    isException ExcClass.keyboardInterrupt = false ∧
    topLevel (RunResult.uncaught ExcClass.keyboardInterrupt) =
      ⟨ExitStatus.killedUncaught ExcClass.keyboardInterrupt, false⟩ ∧
    (mainOutcome envInterruptAtPrompt).printedErrorMsg = false ∧
    (mainOutcome envInterruptAtPrompt).exitedVia ≠ ExitStatus.code 1 ∧
    Step.pkillStreamVideo ∉ (runMain envInterruptAtPrompt).1 ∧
    Step.pkillGetVideoStream ∉ (runMain envInterruptAtPrompt).1 ∧
    Step.removeContainerServer ∉ (runMain envInterruptAtPrompt).1 ∧
    Step.removeContainerClient ∉ (runMain envInterruptAtPrompt).1 ∧
    Step.netStop ∉ (runMain envInterruptAtPrompt).1 ∧
    Step.mgrStop ∉ (runMain envInterruptAtPrompt).1 := by
  decide

end ProjectCCN
